import Mathlib

/-!
Shallow embedding of the itinerary recalculation engine of `src/app.js`
(the `useItineraryCalculation` hook and its helper functions
`timeToMinutes`, `minutesToTimeStr`, `parseStayDuration`,
`getDistanceFromLatLonInKm`), together with proofs of the specified
properties of that engine.

Modelling conventions:
* JavaScript numbers are modelled as `Option ℚ`, with `none` playing the
  role of `NaN`; every arithmetic operation propagates `none`.  The only
  divisions performed by the engine use the nonzero constants 40, 4 and 60,
  so division by zero (which JavaScript maps to `Infinity`) is unreachable.
* JavaScript strings are Lean `String`s; sparse override objects are
  functions `String → Option String` (`none` = key absent).  JavaScript
  truthiness on the looked-up values (`undefined` and `""` are falsy) is
  modelled by `truthyStr` / `jsOrDefault`.
* `Number(s)` coercion is modelled for the string shapes that reach it in
  this program: the empty string (value 0), decimal-digit strings and
  `digits.digits` fractions; every other string is mapped to `NaN`,
  matching JavaScript on all strings with non-numeric characters.
  Signs, exponents and surrounding whitespace are not modelled; no input
  of the engine produces them.
* `parseFloat` / `parseInt` are modelled as longest numeric prefix of the
  same shapes (`NaN` when there is no leading digit or `.digits`).
* The haversine distance function uses real `sin`, `cos`, `sqrt` and
  `arctan`; `Math.atan2 y x` equals `arctan (y / x)` for `x > 0`, which is
  the case here since its second argument is `√(1 - a)` with `a < 1`.
  `toFixed(1)` is modelled for nonnegative arguments (distances are
  nonnegative), rounding to the nearest tenth, ties up.
-/

namespace Itinerary

/-- JavaScript addition on numbers, `NaN` (`none`) propagating. -/
def jsAdd : Option ℚ → Option ℚ → Option ℚ
  | some a, some b => some (a + b)
  | _, _ => none

/-- JavaScript multiplication on numbers, `NaN` propagating. -/
def jsMul : Option ℚ → Option ℚ → Option ℚ
  | some a, some b => some (a * b)
  | _, _ => none

/-- JavaScript division on numbers, `NaN` propagating.  All divisors in the
engine are the nonzero constants 40, 4 and 60, so the `b = 0` case (which
JavaScript sends to `Infinity`) is unreachable; we map it to `NaN`. -/
def jsDiv : Option ℚ → Option ℚ → Option ℚ
  | some a, some b => if b = 0 then none else some (a / b)
  | _, _ => none

/-- `Math.round`: round to nearest, ties toward `+∞` (equal to
`⌊x + 1/2⌋` on every real argument), `NaN` propagating. -/
def jsRound : Option ℚ → Option ℚ :=
  Option.map (fun q => ((⌊q + 1/2⌋ : ℤ) : ℚ))

/-- `Math.floor`, `NaN` propagating (yielding the integer as a `ℚ`). -/
def jsFloor : Option ℚ → Option ℚ :=
  Option.map (fun q => ((⌊q⌋ : ℤ) : ℚ))

/-- Truncation toward zero, the rounding used by the JavaScript `%`
operator. -/
def ratTrunc (q : ℚ) : ℤ :=
  if 0 ≤ q then ⌊q⌋ else ⌈q⌉

/-- The JavaScript remainder `a % b` on rationals (sign of the dividend). -/
def jsRemRat (a b : ℚ) : ℚ :=
  a - b * (ratTrunc (a / b) : ℚ)

/-- The JavaScript remainder `a % b` on integers (sign of the dividend). -/
def jsRemInt (a b : ℤ) : ℤ :=
  if 0 ≤ a then a % b else -((-a) % b)

/-- JavaScript truthiness of a looked-up string value: `undefined`
(`none`) and the empty string are falsy. -/
def truthyStr : Option String → Bool
  | some s => s ≠ ""
  | none => false

/-- The `v || dflt` idiom on a looked-up string value. -/
def jsOrDefault (v : Option String) (d : String) : String :=
  match v with
  | some s => if s = "" then d else s
  | none => d

/-- `String.prototype.split` with a one-character separator, on char
lists. -/
def splitOnChar (c : Char) : List Char → List (List Char)
  | [] => [[]]
  | x :: xs =>
    if x = c then [] :: splitOnChar c xs
    else
      match splitOnChar c xs with
      | [] => [[x]]
      | g :: gs => (x :: g) :: gs

/-- Does `l` start with `p`? -/
def startsWithList : List Char → List Char → Bool
  | [], _ => true
  | _ :: _, [] => false
  | p :: ps, c :: cs => p == c && startsWithList ps cs

/-- `String.prototype.includes`, on char lists. -/
def listHasSub (pat : List Char) : List Char → Bool
  | [] => startsWithList pat []
  | c :: rest => startsWithList pat (c :: rest) || listHasSub pat rest

/-- Numeric value of a list of decimal digits. -/
def digitsVal (l : List Char) : ℕ :=
  l.foldl (fun n c => 10 * n + (c.toNat - 48)) 0

/-- Value of a list of decimal digits read as a fraction `0.d₁d₂…`. -/
def fracVal (l : List Char) : ℚ :=
  (digitsVal l : ℚ) / 10 ^ l.length

/-- JavaScript `Number(s)` coercion on char lists (see the header for the
modelled string shapes). -/
def jsNumberL (cs : List Char) : Option ℚ :=
  if cs.isEmpty then some 0
  else if cs.all Char.isDigit then some (digitsVal cs)
  else
    match splitOnChar '.' cs with
    | [a, b] =>
      if (a.all Char.isDigit && b.all Char.isDigit) && !(a.isEmpty && b.isEmpty) then
        some ((digitsVal a : ℚ) + fracVal b)
      else none
    | _ => none

/-- JavaScript `Number(s)` coercion on strings. -/
def jsNumber (s : String) : Option ℚ :=
  jsNumberL s.toList

/-- JavaScript `parseFloat`: longest `digits[.digits]` prefix, `NaN` when
there is no numeric prefix. -/
def parseFloatJs (s : String) : Option ℚ :=
  let cs := s.toList
  let ip := cs.takeWhile Char.isDigit
  let rest := cs.drop ip.length
  match rest with
  | '.' :: r2 =>
    let fp := r2.takeWhile Char.isDigit
    if ip.isEmpty && fp.isEmpty then none
    else some ((digitsVal ip : ℚ) + fracVal fp)
  | _ => if ip.isEmpty then none else some (digitsVal ip)

/-- JavaScript `parseInt` (radix 10): longest digit prefix, `NaN` when
there is none. -/
def parseIntJs (s : String) : Option ℚ :=
  let ip := s.toList.takeWhile Char.isDigit
  if ip.isEmpty then none else some (digitsVal ip)

/-- `timeToMinutes` from `src/app.js`:
`if (!t) return 0; const [h, m] = t.split(":").map(Number); return h * 60 + m;`
A missing destructured element is `undefined`, which becomes `NaN` in the
arithmetic. -/
def timeToMinutes (t : String) : Option ℚ :=
  if t = "" then some 0
  else
    let ps := (splitOnChar ':' t.toList).map (fun l => jsNumberL l)
    jsAdd (jsMul ((ps.get? 0).getD none) (some 60)) ((ps.get? 1).getD none)

/-- `String.prototype.padStart(2, "0")`. -/
def padStart2 (s : String) : String :=
  if s.length ≥ 2 then s
  else if s.length = 1 then "0" ++ s
  else "00"

/-- Display of an integer-or-`NaN` value, as produced by `toString()`. -/
def jsIntDisplay : Option ℤ → String
  | none => "NaN"
  | some i => toString i

/-- `minutesToTimeStr` from `src/app.js`:
`let h = Math.floor(m / 60); let min = Math.floor(m % 60); h = h % 24;`
then `"${pad h}:${pad min}"`.  On `NaN` this renders `"NaN:NaN"`. -/
def minutesToTimeStr (m : Option ℚ) : String :=
  padStart2 (jsIntDisplay (m.map fun q => jsRemInt ⌊q / 60⌋ 24)) ++ ":" ++
    padStart2 (jsIntDisplay (m.map fun q => ⌊jsRemRat q 60⌋))

/-- `parseStayDuration` from `src/app.js`. -/
def parseStayDuration (s : String) : Option ℚ :=
  if s = "" || s = "-" || s = "Overnight" then some 0
  else if listHasSub ['h', 'r'] s.toList then jsMul (parseFloatJs s) (some 60)
  else if listHasSub ['m', 'i', 'n'] s.toList then parseIntJs s
  else some 0

/-- Decimal rendering of a rational, as JavaScript renders the number in a
template literal: integers print without a point, finite decimal fractions
print with the minimal number of fractional digits.  (Rationals without a
finite decimal expansion fall back to the raw `Rat` rendering; none occur
in this program: coordinates are finite decimal literals and every other
interpolated number is an integer.) -/
def decimalDisplay (q : ℚ) : String :=
  match (List.range 11).find? (fun k => q.den ∣ 10 ^ k) with
  | some 0 => toString q.num
  | some (k + 1) =>
    let sign := if q.num < 0 then "-" else ""
    let n := q.num.natAbs * (10 ^ (k + 1) / q.den)
    let base := toString n
    let s := if base.length ≥ k + 2 then base
             else String.mk (List.replicate (k + 2 - base.length) '0') ++ base
    let cs := s.toList
    sign ++ String.mk (cs.take (cs.length - (k + 1))) ++ "." ++
      String.mk (cs.drop (cs.length - (k + 1)))
  | none => toString q

/-- Ticket reference data of a stop (`{ adult, child }` unit prices). -/
structure Ticket where
  adult : ℚ
  child : ℚ
deriving DecidableEq

/-- A stop of the read-only reference data (`day.spots[i]` in
`window.RAW_KML_DATA`): name, coordinates, optional map code, optional
descriptive text, optional ticket pricing. -/
structure Spot where
  name : String
  lat : ℚ
  lon : ℚ
  mapCode : Option String
  desc : Option String
  ticket : Option Ticket
deriving DecidableEq

/-- A day of the reference data. -/
structure TripDay where
  dayId : String
  date : String
  title : String
  themeColor : String
  spots : List Spot
deriving DecidableEq

/-- The `nextStopInfo` record built for every non-final stop of a day. -/
structure NextStopInfo where
  name : String
  distance : String
  driveTime : String
  walkTime : String
  navLink : String
deriving DecidableEq

/-- The derived record the engine emits for one stop: all reference-data
fields of the spot (the `...spot` spread; the `ticket: spot.ticket || null`
override maps `undefined` and `null` alike to `none` and a present ticket
object, always truthy, to itself, so it preserves the `Option` value),
plus the computed fields. -/
structure DerivedSpot extends Spot where
  id : String
  time : String
  stay : String
  isDeparted : Bool
  actualDepTime : Option String
  nextStop : Option NextStopInfo
  nextArrivalTime : String
  mapcodeDisplay : String
  gmapLink : String
  weather : String
  temp : String
deriving DecidableEq

/-- A day of the derived schedule (`{ ...day, spots: newSpots }`). -/
structure DerivedDay where
  dayId : String
  date : String
  title : String
  themeColor : String
  spots : List DerivedSpot
deriving DecidableEq

/-- A sparse override map (a plain JS object keyed by stop/day id). -/
abbrev SMap := String → Option String

/-- The synthetic stop id `` `${day.dayId}-s${idx}` ``. -/
def spotIdOf (dayId : String) (idx : ℕ) : String :=
  dayId ++ "-s" ++ toString idx

/-- The `> 60` duration formatting used for `driveTime` and `walkTime`:
`mins > 60 ? Math.floor(mins / 60) + "h" + (mins % 60) + "m" : mins + "m"`.
On `NaN` the comparison is false and the rendering is `"NaNm"`. -/
def fmtDur : Option ℚ → String
  | none => "NaNm"
  | some q =>
    if 60 < q then toString ⌊q / 60⌋ ++ "h" ++ decimalDisplay (jsRemRat q 60) ++ "m"
    else decimalDisplay q ++ "m"

/-- Effective departure of a stop (lines 133–143 of `src/app.js`): the
parsed actual-departure override when one is truthy, otherwise the arrival
clock plus the parsed stay duration. -/
def stopEffDep (actualDepartures stays : SMap) (sid : String) (arrival : Option ℚ) :
    Option ℚ :=
  if truthyStr (actualDepartures sid) then
    timeToMinutes ((actualDepartures sid).getD "")
  else
    jsAdd arrival (parseStayDuration (jsOrDefault (stays sid) "1.5 hr"))

/-- Travel minutes of the leg leaving a stop (lines 148–160): the distance
string divided by the mode speed (40 km/h for `"car"`, else 4 km/h), times
60, rounded, plus a 10-minute overhead for `"car"`. -/
def legTravel (gd : ℚ → ℚ → ℚ → ℚ → String) (transportModes : SMap) (sid : String)
    (a b : Spot) : Option ℚ :=
  let dist := gd a.lat a.lon b.lat b.lon
  let mode := jsOrDefault (transportModes sid) "car"
  let speed : ℚ := if mode = "car" then 40 else 4
  let t0 := jsRound (jsMul (jsDiv (jsNumber dist) (some speed)) (some 60))
  if mode = "car" then jsAdd t0 (some 10) else t0

/-- `displayDriveMins` of a leg (line 167): always car speed plus the
10-minute overhead, whatever the active mode. -/
def displayDriveMins (gd : ℚ → ℚ → ℚ → ℚ → String) (a b : Spot) : Option ℚ :=
  jsAdd (jsRound (jsMul (jsDiv (jsNumber (gd a.lat a.lon b.lat b.lon)) (some 40)) (some 60)))
    (some 10)

/-- `displayWalkMins` of a leg (line 168): always walking speed. -/
def displayWalkMins (gd : ℚ → ℚ → ℚ → ℚ → String) (a b : Spot) : Option ℚ :=
  jsRound (jsMul (jsDiv (jsNumber (gd a.lat a.lon b.lat b.lon)) (some 4)) (some 60))

/-- The `nextStopInfo` record for the leg from `a` to `b` (lines 167–187). -/
def mkNextStopInfo (gd : ℚ → ℚ → ℚ → ℚ → String) (transportModes : SMap)
    (sid : String) (a b : Spot) : NextStopInfo :=
  let dist := gd a.lat a.lon b.lat b.lon
  let mode := jsOrDefault (transportModes sid) "car"
  { name := b.name
    distance := dist ++ " km"
    driveTime := fmtDur (displayDriveMins gd a b)
    walkTime := fmtDur (displayWalkMins gd a b)
    navLink := "https://www.google.com/maps/dir/?api=1&origin=" ++
      decimalDisplay a.lat ++ "," ++ decimalDisplay a.lon ++ "&destination=" ++
      decimalDisplay b.lat ++ "," ++ decimalDisplay b.lon ++ "&travelmode=" ++
      (if mode = "car" then "driving" else "walking") }

/-- The fields of the derived record that do not depend on the position of
the stop within the day (lines 190–206 of `src/app.js`). -/
def baseRecord (actualDepartures stays : SMap) (sid : String) (spot : Spot)
    (arrivalTimeStr : String) (nextStop : Option NextStopInfo)
    (nextArrivalTimeStr : String) : DerivedSpot :=
  { toSpot := spot
    id := sid
    time := arrivalTimeStr
    stay := jsOrDefault (stays sid) "1.5 hr"
    isDeparted := truthyStr (actualDepartures sid)
    actualDepTime := if truthyStr (actualDepartures sid) then actualDepartures sid else none
    nextStop := nextStop
    nextArrivalTime := nextArrivalTimeStr
    mapcodeDisplay := jsOrDefault spot.mapCode "GPS"
    gmapLink := "https://www.google.com/maps/search/?api=1&query=" ++
      decimalDisplay spot.lat ++ "," ++ decimalDisplay spot.lon
    weather := "sunny"
    temp := "10°C" }

/-- The body of `day.spots.map((spot, idx) => …)` with its `currentMinutes`
accumulator made explicit: `idx` is the index of the first spot of `l`
within the day and `cur` the running clock at that spot. -/
def processSpots (gd : ℚ → ℚ → ℚ → ℚ → String)
    (actualDepartures stays transportModes : SMap) (dayId : String) :
    List Spot → ℕ → Option ℚ → List DerivedSpot
  | [], _, _ => []
  | spot :: rest, idx, cur =>
    let sid := spotIdOf dayId idx
    let departureMinutes := stopEffDep actualDepartures stays sid cur
    match rest with
    | [] =>
      [baseRecord actualDepartures stays sid spot (minutesToTimeStr cur) none ""]
    | nextSpot :: _ =>
      let cur2 := jsAdd departureMinutes (legTravel gd transportModes sid spot nextSpot)
      baseRecord actualDepartures stays sid spot (minutesToTimeStr cur)
          (some (mkNextStopInfo gd transportModes sid spot nextSpot))
          (minutesToTimeStr cur2) ::
        processSpots gd actualDepartures stays transportModes dayId rest (idx + 1) cur2

/-- Derivation of a single day: the running clock starts at the parsed
day-start override (`dayStartTimes[day.dayId] || "09:00"`), and the day is
emitted with its spots replaced (`{ ...day, spots: newSpots }`). -/
def deriveDay (gd : ℚ → ℚ → ℚ → ℚ → String)
    (dayStartTimes actualDepartures stays transportModes : SMap)
    (day : TripDay) : DerivedDay :=
  { dayId := day.dayId
    date := day.date
    title := day.title
    themeColor := day.themeColor
    spots := processSpots gd actualDepartures stays transportModes day.dayId day.spots 0
      (timeToMinutes (jsOrDefault (dayStartTimes day.dayId) "09:00")) }

/-- `useItineraryCalculation` from `src/app.js`, parameterised by the
distance function `gd` (the engine calls `getDistanceFromLatLonInKm`,
which returns the `toFixed(1)` string).  `rawKml || []` is a list here, so
the `undefined` guard is vacuous. -/
def useItineraryCalculation (gd : ℚ → ℚ → ℚ → ℚ → String) (rawKml : List TripDay)
    (dayStartTimes actualDepartures stays transportModes : SMap) : List DerivedDay :=
  rawKml.map (deriveDay gd dayStartTimes actualDepartures stays transportModes)

/-- The arrival clock of the engine, recomputed declaratively: `chainFrom
l idx cur k` is the running-clock value at the `k`-th spot of `l`, where
`cur` is the clock at the first spot of `l` and `idx` its index in the
day.  Each later value adds the previous stop's effective departure and
the travel minutes of the connecting leg. -/
def chainFrom (gd : ℚ → ℚ → ℚ → ℚ → String)
    (actualDepartures stays transportModes : SMap) (dayId : String)
    (l : List Spot) (idx : ℕ) (cur : Option ℚ) : ℕ → Option ℚ
  | 0 => cur
  | k + 1 =>
    match l.get? k, l.get? (k + 1) with
    | some a, some b =>
      jsAdd
        (stopEffDep actualDepartures stays (spotIdOf dayId (idx + k))
          (chainFrom gd actualDepartures stays transportModes dayId l idx cur k))
        (legTravel gd transportModes (spotIdOf dayId (idx + k)) a b)
    | _, _ => none

/-- The canonical two-digit-padded `"HH:MM"` rendering of an hour and a
minute value. -/
def hhmm (h m : ℕ) : String :=
  padStart2 (toString h) ++ ":" ++ padStart2 (toString m)

/-- A well-formed `"HH:MM"` clock string: two-digit-padded hour below 24
and minute below 60.  (This is exactly the format produced by the page's
`<input type="time">` controls and by `minutesToTimeStr` itself.) -/
def WellFormedHHMM (s : String) : Prop :=
  ∃ h m : ℕ, h < 24 ∧ m < 60 ∧ s = hhmm h m

/-- The engine's running clock at stop `k` of a day (minutes, or `NaN`). -/
def dayClock (gd : ℚ → ℚ → ℚ → ℚ → String) (DS A S T : SMap) (day : TripDay)
    (k : ℕ) : Option ℚ :=
  chainFrom gd A S T day.dayId day.spots 0
    (timeToMinutes (jsOrDefault (DS day.dayId) "09:00")) k

/-- The engine's effective-departure value at stop `k` of a day. -/
def dayEffDep (gd : ℚ → ℚ → ℚ → ℚ → String) (DS A S T : SMap) (day : TripDay)
    (k : ℕ) : Option ℚ :=
  stopEffDep A S (spotIdOf day.dayId k) (dayClock gd DS A S T day k)

/-- The travel minutes of the leg leaving stop `k` of a day. -/
def dayLegTravel (gd : ℚ → ℚ → ℚ → ℚ → String) (T : SMap) (day : TripDay)
    (k : ℕ) : Option ℚ :=
  match day.spots.get? k, day.spots.get? (k + 1) with
  | some a, some b => legTravel gd T (spotIdOf day.dayId k) a b
  | _, _ => none

/-- A distance function that ignores the coordinates (handy for concrete
runs of the parameterised engine). -/
def constDist (s : String) : ℚ → ℚ → ℚ → ℚ → String :=
  fun _ _ _ _ => s

/-- The everywhere-absent override map. -/
def emptyMap : SMap := fun _ => none

/-- A concrete reference spot (the Tokyo coordinates of the end-to-end
scenario in the specification). -/
def tokyoSpot : Spot :=
  { name := "Tokyo", lat := 35.6895, lon := 139.6917, mapCode := none,
    desc := none, ticket := none }

/-- A second concrete reference spot (the Tokyo Tower coordinates of the
end-to-end scenario in the specification). -/
def towerSpot : Spot :=
  { name := "Tower", lat := 35.6586, lon := 139.7454, mapCode := none,
    desc := none, ticket := none }

/-- A concrete two-stop reference day. -/
def demoDay : TripDay :=
  { dayId := "day1", date := "1/1", title := "Demo", themeColor := "",
    spots := [tokyoSpot, towerSpot] }

/-- The end-to-end scenario's day start-time override map. -/
def scenarioStart : SMap := fun key => if key = "day1" then some "09:00" else none

/-- The end-to-end scenario's stay override map. -/
def scenarioStays : SMap := fun sid => if sid = "day1-s0" then some "1.5 hr" else none

/-- The end-to-end scenario's transport-mode override map. -/
def scenarioModes : SMap := fun sid => if sid = "day1-s0" then some "car" else none

/-- The haversine computation of `getDistanceFromLatLonInKm` in
`src/app.js` (Earth radius 6371 km), over the reals.  `Math.atan2 y x`
equals `arctan (y / x)` for `x > 0`, the case here since the second
argument is `√(1 - a)` with `0 ≤ a < 1`. -/
noncomputable def haversineKmReal (lat1 lon1 lat2 lon2 : ℝ) : ℝ :=
  let dLat := (lat2 - lat1) * (Real.pi / 180)
  let dLon := (lon2 - lon1) * (Real.pi / 180)
  let a := Real.sin (dLat / 2) * Real.sin (dLat / 2) +
    Real.cos (lat1 * (Real.pi / 180)) * Real.cos (lat2 * (Real.pi / 180)) *
    Real.sin (dLon / 2) * Real.sin (dLon / 2)
  let c := 2 * Real.arctan (Real.sqrt a / Real.sqrt (1 - a))
  6371 * c

/-- One-decimal rendering of `n` tenths (`n ≥ 0`), the string shape
produced by `Number.prototype.toFixed(1)` on a nonnegative value. -/
def decimalStr10 (n : ℤ) : String :=
  toString (n / 10) ++ "." ++ toString (n % 10)

/-- `x.toFixed(1)` for a nonnegative real: round to the nearest tenth
(ties away from zero, i.e. up) and print one fractional digit.  The
engine only applies this to distances, which are nonnegative. -/
noncomputable def toFixed1 (x : ℝ) : String :=
  decimalStr10 ⌊x * 10 + 1/2⌋

/-- `getDistanceFromLatLonInKm` from `src/app.js`: the haversine distance
with `.toFixed(1)` applied, returning a string. -/
noncomputable def getDistanceFromLatLonInKm (lat1 lon1 lat2 lon2 : ℚ) : String :=
  toFixed1 (haversineKmReal lat1 lon1 lat2 lon2)

/-- Unfolding `processSpots` on a two-or-more-element spot list. -/
theorem processSpots_cons_cons (gd : ℚ → ℚ → ℚ → ℚ → String) (A S T : SMap)
    (dayId : String) (spot b : Spot) (r2 : List Spot) (idx : ℕ) (cur : Option ℚ) :
    processSpots gd A S T dayId (spot :: b :: r2) idx cur =
      baseRecord A S (spotIdOf dayId idx) spot (minutesToTimeStr cur)
        (some (mkNextStopInfo gd T (spotIdOf dayId idx) spot b))
        (minutesToTimeStr (jsAdd (stopEffDep A S (spotIdOf dayId idx) cur)
          (legTravel gd T (spotIdOf dayId idx) spot b))) ::
      processSpots gd A S T dayId (b :: r2) (idx + 1)
        (jsAdd (stopEffDep A S (spotIdOf dayId idx) cur)
          (legTravel gd T (spotIdOf dayId idx) spot b)) := rfl

/-- Unfolding `processSpots` on a one-element spot list. -/
theorem processSpots_singleton (gd : ℚ → ℚ → ℚ → ℚ → String) (A S T : SMap)
    (dayId : String) (spot : Spot) (idx : ℕ) (cur : Option ℚ) :
    processSpots gd A S T dayId [spot] idx cur =
      [baseRecord A S (spotIdOf dayId idx) spot (minutesToTimeStr cur) none ""] := rfl

/-- Unfolding the arrival chain at a successor index. -/
theorem chainFrom_succ (gd : ℚ → ℚ → ℚ → ℚ → String) (A S T : SMap)
    (dayId : String) (l : List Spot) (idx : ℕ) (cur : Option ℚ) (k : ℕ) :
    chainFrom gd A S T dayId l idx cur (k + 1) =
      match l.get? k, l.get? (k + 1) with
      | some a, some b =>
        jsAdd
          (stopEffDep A S (spotIdOf dayId (idx + k))
            (chainFrom gd A S T dayId l idx cur k))
          (legTravel gd T (spotIdOf dayId (idx + k)) a b)
      | _, _ => none := rfl

/-- The engine emits exactly one derived record per spot. -/
theorem processSpots_length (gd : ℚ → ℚ → ℚ → ℚ → String)
    (A S T : SMap) (dayId : String) :
    ∀ (l : List Spot) (idx : ℕ) (cur : Option ℚ),
      (processSpots gd A S T dayId l idx cur).length = l.length := by
  intro l
  induction l with
  | nil => intro idx cur; rfl
  | cons spot rest ih =>
    intro idx cur
    cases rest with
    | nil => rfl
    | cons b r2 =>
      rw [processSpots_cons_cons, List.length_cons, List.length_cons, ih]

/-- Unrolling the arrival chain by one stop. -/
theorem chainFrom_cons (gd : ℚ → ℚ → ℚ → ℚ → String) (A S T : SMap)
    (dayId : String) (a b : Spot) (r : List Spot) (idx : ℕ) (cur : Option ℚ) :
    ∀ k, chainFrom gd A S T dayId (a :: b :: r) idx cur (k + 1) =
      chainFrom gd A S T dayId (b :: r) (idx + 1)
        (jsAdd (stopEffDep A S (spotIdOf dayId idx) cur)
          (legTravel gd T (spotIdOf dayId idx) a b)) k := by
  intro k
  induction k with
  | zero => simp [chainFrom]
  | succ k ih =>
    have hidx : idx + (k + 1) = idx + 1 + k := by omega
    rw [chainFrom_succ gd A S T dayId (a :: b :: r) idx cur (k + 1), ih,
      chainFrom_succ gd A S T dayId (b :: r) (idx + 1)
        (jsAdd (stopEffDep A S (spotIdOf dayId idx) cur)
          (legTravel gd T (spotIdOf dayId idx) a b)) k, hidx]
    simp only [List.get?_cons_succ]

/-- Characterisation of the `k`-th derived record produced by
`processSpots`: every field is determined by the `k`-th spot, the override
maps and the declarative arrival chain. -/
theorem processSpots_get? (gd : ℚ → ℚ → ℚ → ℚ → String) (A S T : SMap)
    (dayId : String) :
    ∀ (l : List Spot) (idx : ℕ) (cur : Option ℚ) (k : ℕ) (r : DerivedSpot),
      (processSpots gd A S T dayId l idx cur).get? k = some r →
      ∃ spot, l.get? k = some spot ∧
        r.toSpot = spot ∧
        r.id = spotIdOf dayId (idx + k) ∧
        r.time = minutesToTimeStr (chainFrom gd A S T dayId l idx cur k) ∧
        r.stay = jsOrDefault (S (spotIdOf dayId (idx + k))) "1.5 hr" ∧
        r.isDeparted = truthyStr (A (spotIdOf dayId (idx + k))) ∧
        r.actualDepTime =
          (if truthyStr (A (spotIdOf dayId (idx + k))) then A (spotIdOf dayId (idx + k))
           else none) ∧
        r.mapcodeDisplay = jsOrDefault spot.mapCode "GPS" ∧
        r.gmapLink = "https://www.google.com/maps/search/?api=1&query=" ++
          decimalDisplay spot.lat ++ "," ++ decimalDisplay spot.lon ∧
        r.weather = "sunny" ∧ r.temp = "10°C" ∧
        (match l.get? (k + 1) with
         | none => r.nextStop = none ∧ r.nextArrivalTime = ""
         | some nxt =>
           r.nextStop = some (mkNextStopInfo gd T (spotIdOf dayId (idx + k)) spot nxt) ∧
           r.nextArrivalTime =
             minutesToTimeStr (chainFrom gd A S T dayId l idx cur (k + 1))) := by
  intro l
  induction l with
  | nil => intro idx cur k r h; simp [processSpots] at h
  | cons spot rest ih =>
    intro idx cur k r h
    cases rest with
    | nil =>
      cases k with
      | zero =>
        rw [processSpots_singleton, List.get?_cons_zero, Option.some.injEq] at h
        refine ⟨spot, rfl, ?_⟩
        subst h
        simp [baseRecord, chainFrom]
      | succ k =>
        rw [processSpots_singleton, List.get?_cons_succ, List.get?_nil] at h
        cases h
    | cons b r2 =>
      cases k with
      | zero =>
        rw [processSpots_cons_cons, List.get?_cons_zero, Option.some.injEq] at h
        refine ⟨spot, rfl, ?_⟩
        subst h
        exact ⟨rfl, rfl, rfl, rfl, rfl, rfl, rfl, rfl, rfl, rfl, rfl, rfl⟩
      | succ k =>
        rw [processSpots_cons_cons, List.get?_cons_succ] at h
        obtain ⟨spot2, hget, hrest⟩ := ih (idx + 1) _ k r h
        have hidx : idx + 1 + k = idx + (k + 1) := by omega
        refine ⟨spot2, by simpa using hget, ?_⟩
        rw [hidx] at hrest
        rw [← chainFrom_cons gd A S T dayId spot b r2 idx cur k] at hrest
        obtain ⟨h1, h2, h3, h4, h5, h6, h7, h8, h9, h10, h11⟩ := hrest
        refine ⟨h1, h2, h3, h4, h5, h6, h7, h8, h9, h10, ?_⟩
        rw [← chainFrom_cons gd A S T dayId spot b r2 idx cur (k + 1)] at h11
        simpa using h11

/-- Splitting a list at an explicit separator occurrence, when the prefix
contains no separator. -/
theorem splitOnChar_append_sep (c : Char) (xs ys : List Char) (hx : c ∉ xs) :
    splitOnChar c (xs ++ c :: ys) = xs :: splitOnChar c ys := by
  induction xs with
  | nil => simp [splitOnChar]
  | cons x xt ih =>
    have hxc : ¬x = c := fun h => hx (h ▸ List.mem_cons_self x xt)
    have hxt : c ∉ xt := fun h => hx (List.mem_cons_of_mem x h)
    have h1 : splitOnChar c (xt ++ c :: ys) = xt :: splitOnChar c ys := ih hxt
    simp only [List.cons_append, splitOnChar, if_neg hxc, List.append_eq, h1]

/-- A list without the separator splits into itself. -/
theorem splitOnChar_no_sep (c : Char) (ys : List Char) (hy : c ∉ ys) :
    splitOnChar c ys = [ys] := by
  induction ys with
  | nil => rfl
  | cons y yt ih =>
    have hyc : ¬y = c := fun h => hy (h ▸ List.mem_cons_self y yt)
    have h1 : splitOnChar c yt = [yt] := ih (fun h => hy (List.mem_cons_of_mem y h))
    simp only [splitOnChar, if_neg hyc, h1]

/-- Character lists of decimal digits contain no colon. -/
theorem colon_not_mem_of_digits (l : List Char) (hl : l.all Char.isDigit = true) :
    ':' ∉ l := by
  intro hmem
  have := (List.all_eq_true.mp hl) ':' hmem
  simp [Char.isDigit] at this

/-- The two-digit padding of a value below 100 is a nonempty all-digit
string whose `digitsVal` is the value itself (checked by evaluation). -/
theorem padDigits_spec :
    ∀ n < 100, ((padStart2 (toString n)).toList.all Char.isDigit = true ∧
      digitsVal ((padStart2 (toString n)).toList) = n ∧
      (padStart2 (toString n)).toList ≠ []) := by decide

/-- String concatenation concatenates the underlying character lists. -/
theorem strToList_append (a b : String) : (a ++ b).toList = a.toList ++ b.toList := by
  cases a
  cases b
  rfl

/-- Rendering a nonnegative integer renders its natural-number value. -/
theorem toString_toNat (i : ℤ) (hi : 0 ≤ i) : toString i = toString i.toNat := by
  cases i with
  | ofNat n => rfl
  | negSucc n => exact absurd hi (by simp)

/-- `jsNumberL` on a nonempty all-digit list recovers `digitsVal`. -/
theorem jsNumberL_digits (cs : List Char) (h1 : cs.all Char.isDigit = true)
    (h2 : cs ≠ []) : jsNumberL cs = some ((digitsVal cs : ℚ)) := by
  unfold jsNumberL
  rw [if_neg (by simpa using h2), if_pos (by simpa using h1)]

/-- Parsing a well-formed padded clock string: `timeToMinutes` returns
`60 * h + m` minutes. -/
theorem timeToMinutes_hhmm (h m : ℕ) (hh : h < 24) (hm : m < 60) :
    timeToMinutes (hhmm h m) = some ((60 * h + m : ℕ) : ℚ) := by
  have hball := padDigits_spec
  obtain ⟨hd1, hv1, hne1⟩ := hball h (by omega)
  obtain ⟨hd2, hv2, hne2⟩ := hball m (by omega)
  have htl : (hhmm h m).toList =
      (padStart2 (toString h)).toList ++ ':' :: (padStart2 (toString m)).toList := by
    rw [hhmm, strToList_append, strToList_append]
    simp
  have hne : hhmm h m ≠ "" := by
    intro habs
    rw [habs] at htl
    exact hne1 (List.append_eq_nil.mp htl.symm).1
  unfold timeToMinutes
  rw [if_neg hne, htl,
    splitOnChar_append_sep ':' _ _ (colon_not_mem_of_digits _ hd1),
    splitOnChar_no_sep ':' _ (colon_not_mem_of_digits _ hd2)]
  simp only [List.map_cons, List.map_nil, List.get?_cons_zero, List.get?_cons_succ,
    Option.getD_some,
    jsNumberL_digits _ hd1 hne1, jsNumberL_digits _ hd2 hne2, hv1, hv2]
  simp only [jsMul, jsAdd, Option.some.injEq]
  push_cast
  ring

/-- Rendering an integer minute count: `minutesToTimeStr` displays the
value reduced modulo 1440, as a padded `"HH:MM"` string. -/
theorem minutesToTimeStr_int (n : ℤ) (hn : 0 ≤ n) :
    minutesToTimeStr (some (n : ℚ)) =
      hhmm ((n % 1440) / 60).toNat (n % 60).toNat := by
  have hfloor : ⌊(n : ℚ) / 60⌋ = n / 60 := by
    simpa using Rat.floor_intCast_div_natCast n 60
  have hdivnn : 0 ≤ n / 60 := Int.ediv_nonneg hn (by norm_num)
  have hrem : jsRemInt (n / 60) 24 = (n % 1440) / 60 := by
    rw [jsRemInt, if_pos hdivnn]
    omega
  have htr : ratTrunc ((n : ℚ) / 60) = n / 60 := by
    rw [ratTrunc, if_pos (div_nonneg (by exact_mod_cast hn) (by norm_num)), hfloor]
  have hremr : jsRemRat (n : ℚ) 60 = ((n % 60 : ℤ) : ℚ) := by
    rw [jsRemRat, htr]
    have h60 : n % 60 = n - 60 * (n / 60) := by omega
    rw [h60]
    push_cast
    ring
  have hfl2 : ⌊((n % 60 : ℤ) : ℚ)⌋ = n % 60 := Int.floor_intCast _
  have hnn1 : 0 ≤ (n % 1440) / 60 := by omega
  have hnn2 : 0 ≤ n % 60 := by omega
  unfold minutesToTimeStr hhmm
  rw [Option.map_some', Option.map_some', hfloor, hrem, hremr, hfl2]
  simp only [jsIntDisplay]
  rw [toString_toNat _ hnn1, toString_toNat _ hnn2]

/-- Parsing after rendering: a nonnegative integer minute value round-trips
through the display to its value modulo 1440. -/
theorem timeToMinutes_minutesToTimeStr (n : ℤ) (hn : 0 ≤ n) :
    timeToMinutes (minutesToTimeStr (some (n : ℚ))) = some (((n % 1440 : ℤ)) : ℚ) := by
  rw [minutesToTimeStr_int n hn]
  rw [timeToMinutes_hhmm _ _ (by omega) (by omega)]
  congr 1
  have h1 : (60 * ((n % 1440) / 60).toNat + (n % 60).toNat : ℕ) = ((n % 1440).toNat : ℕ) := by
    omega
  rw [h1]
  exact_mod_cast Int.toNat_of_nonneg (show (0:ℤ) ≤ n % 1440 by omega)

/-- Rendering after parsing: `minutesToTimeStr ∘ timeToMinutes` is the
identity on well-formed `"HH:MM"` strings. -/
theorem minutesToTimeStr_timeToMinutes (s : String) (hs : WellFormedHHMM s) :
    minutesToTimeStr (timeToMinutes s) = s := by
  obtain ⟨h, m, hh, hm, rfl⟩ := hs
  rw [timeToMinutes_hhmm h m hh hm]
  have hcast : ((60 * h + m : ℕ) : ℚ) = (((60 * h + m : ℕ) : ℤ) : ℚ) := by push_cast; ring
  rw [hcast, minutesToTimeStr_int _ (Int.natCast_nonneg _)]
  congr 1 <;> omega

/-- The day clock at a successor stop is the previous stop's effective
departure plus the leg's travel minutes. -/
theorem dayClock_succ (gd : ℚ → ℚ → ℚ → ℚ → String) (DS A S T : SMap)
    (day : TripDay) (k : ℕ) (a b : Spot)
    (ha : day.spots.get? k = some a) (hb : day.spots.get? (k + 1) = some b) :
    dayClock gd DS A S T day (k + 1) =
      jsAdd (dayEffDep gd DS A S T day k) (dayLegTravel gd T day k) := by
  unfold dayEffDep dayLegTravel dayClock
  rw [chainFrom_succ, ha, hb]
  simp [Nat.zero_add]

/-- `timeToMinutes` on the default day start. -/
theorem time_0900 : timeToMinutes "09:00" = some 540 := by
  have h : "09:00" = hhmm 9 0 := by decide
  rw [h, timeToMinutes_hhmm 9 0 (by omega) (by omega)]
  norm_num

/-- `parseStayDuration` on the default stay. -/
theorem stay_90 : parseStayDuration "1.5 hr" = some 90 := by
  simp +decide [parseStayDuration, parseFloatJs, jsMul, digitsVal, fracVal]
  norm_num

/-- `Number("4.0")`. -/
theorem jsNumber_40 : jsNumber "4.0" = some 4 := by
  simp +decide [jsNumber, jsNumberL, digitsVal, fracVal, splitOnChar]

/-- `Number("5.9")`. -/
theorem jsNumber_59 : jsNumber "5.9" = some (59 / 10) := by
  simp +decide [jsNumber, jsNumberL, digitsVal, fracVal, splitOnChar]
  norm_num

/-- The JavaScript remainder by 60 of a nonnegative integer. -/
theorem jsRemRat_int (n : ℤ) (hn : 0 ≤ n) :
    jsRemRat ((n : ℚ)) 60 = ((n % 60 : ℤ) : ℚ) := by
  have hfloor : ⌊(n : ℚ) / 60⌋ = n / 60 := by
    simpa using Rat.floor_intCast_div_natCast n 60
  rw [jsRemRat, ratTrunc,
    if_pos (div_nonneg (by exact_mod_cast hn) (by norm_num)), hfloor]
  have h60 : n % 60 = n - 60 * (n / 60) := by omega
  rw [h60]
  push_cast
  ring

/-- `decimalDisplay` of an integer value prints the plain integer. -/
theorem decimalDisplay_intCast (n : ℤ) :
    decimalDisplay ((n : ℚ)) = toString n := by
  unfold decimalDisplay
  rw [Rat.den_intCast, Rat.num_intCast]
  norm_num
  rw [show List.find? (fun _ => true) (List.range 11) = some 0 from rfl]

/-- The duration formatting on a nonnegative integer number of minutes:
hours-and-minutes only strictly above 60, plain minutes otherwise. -/
theorem fmtDur_int (n : ℤ) (hn : 0 ≤ n) :
    fmtDur (some ((n : ℚ))) =
      if 60 < n then toString (n / 60) ++ "h" ++ toString (n % 60) ++ "m"
      else toString n ++ "m" := by
  have hfloor : ⌊(n : ℚ) / 60⌋ = n / 60 := by
    simpa using Rat.floor_intCast_div_natCast n 60
  simp only [fmtDur]
  by_cases h : 60 < n
  · rw [if_pos (show (60:ℚ) < ((n:ℚ)) by exact_mod_cast h), if_pos h, hfloor,
      jsRemRat_int n hn, decimalDisplay_intCast]
  · rw [if_neg (show ¬(60:ℚ) < ((n:ℚ)) by exact_mod_cast h), if_neg h,
      decimalDisplay_intCast]

/-- Travel minutes of a car-mode leg, given the numeric value of the
distance string: distance over 40 km/h, times 60, rounded, plus 10. -/
theorem legTravel_car (gd : ℚ → ℚ → ℚ → ℚ → String) (T : SMap) (sid : String)
    (a b : Spot) (d : ℚ) (hd : jsNumber (gd a.lat a.lon b.lat b.lon) = some d)
    (hmode : jsOrDefault (T sid) "car" = "car") :
    legTravel gd T sid a b = some (((⌊d / 40 * 60 + 1/2⌋ + 10 : ℤ) : ℚ)) := by
  simp only [legTravel]
  rw [hmode, hd]
  simp only [if_pos rfl, jsDiv, jsMul, jsRound, jsAdd, Option.map_some']
  norm_num

/-- Travel minutes of a walk-mode leg: distance over 4 km/h, times 60,
rounded, with no overhead. -/
theorem legTravel_walk (gd : ℚ → ℚ → ℚ → ℚ → String) (T : SMap) (sid : String)
    (a b : Spot) (d : ℚ) (hd : jsNumber (gd a.lat a.lon b.lat b.lon) = some d)
    (hmode : jsOrDefault (T sid) "car" = "walk") :
    legTravel gd T sid a b = some (((⌊d / 4 * 60 + 1/2⌋ : ℤ) : ℚ)) := by
  simp only [legTravel]
  rw [hmode, hd]
  simp only [if_neg (by decide : ¬("walk" : String) = "car"), jsDiv, jsMul, jsRound,
    Option.map_some']
  norm_num

/-- C4: stay-duration resolution: `"1.5 hr"` resolves to 90 minutes,
`"45 min"` to 45, `"-"` and `"Overnight"` to 0, and a stop with no entry
in the stays map resolves through the `stays[spotId] || "1.5 hr"` default
to 90 minutes, so its effective departure is its arrival plus 90. -/
theorem stay_duration_resolution :
    parseStayDuration "1.5 hr" = some 90 ∧
    parseStayDuration "45 min" = some 45 ∧
    parseStayDuration "-" = some 0 ∧
    parseStayDuration "Overnight" = some 0 ∧
    (∀ sid : String, jsOrDefault (emptyMap sid) "1.5 hr" = "1.5 hr") ∧
    ∀ (sid : String) (arr : Option ℚ),
      stopEffDep emptyMap emptyMap sid arr = jsAdd arr (some 90) := by
  have h15 : parseStayDuration "1.5 hr" = some 90 := by
    simp +decide [parseStayDuration, parseFloatJs, jsMul, digitsVal, fracVal]
    norm_num
  refine ⟨h15, ?_, by decide, by decide, fun _ => rfl, ?_⟩
  · simp +decide [parseStayDuration, parseIntJs, digitsVal]
  · intro sid arr
    unfold stopEffDep
    rw [if_neg (by simp [truthyStr, emptyMap])]
    rw [show jsOrDefault (emptyMap sid) "1.5 hr" = "1.5 hr" from rfl, h15]

/-- C8: the engine is a pure function of its five inputs (it is a function
in this embedding, with no other state): two invocations on identical
inputs yield identical derived output. -/
theorem engine_deterministic (gd gd2 : ℚ → ℚ → ℚ → ℚ → String)
    (days days2 : List TripDay) (DS DS2 A A2 S S2 T T2 : SMap)
    (hgd : gd = gd2) (hdays : days = days2) (hDS : DS = DS2) (hA : A = A2)
    (hS : S = S2) (hT : T = T2) :
    useItineraryCalculation gd days DS A S T =
      useItineraryCalculation gd2 days2 DS2 A2 S2 T2 := by
  subst hgd hdays hDS hA hS hT
  rfl

/-- Witness for C8 at a concrete input. -/
theorem engine_deterministic_witness :
    constDist "5.0" = constDist "5.0" ∧ [demoDay] = [demoDay] ∧
    (emptyMap = emptyMap) ∧
    useItineraryCalculation (constDist "5.0") [demoDay] emptyMap emptyMap emptyMap emptyMap =
      useItineraryCalculation (constDist "5.0") [demoDay] emptyMap emptyMap emptyMap emptyMap :=
  ⟨rfl, rfl, rfl,
    engine_deterministic (constDist "5.0") (constDist "5.0") [demoDay] [demoDay]
      emptyMap emptyMap emptyMap emptyMap emptyMap emptyMap emptyMap emptyMap
      rfl rfl rfl rfl rfl rfl⟩

/-- C9: every derived record preserves all reference-data fields of its
input spot (name, coordinates, map code, descriptive text, ticket — the
whole `Spot` projection), and the derived day keeps the input day's
`dayId` (and other day fields) and exactly as many stops, in order. -/
theorem reference_fields_preserved (gd : ℚ → ℚ → ℚ → ℚ → String)
    (days : List TripDay) (DS A S T : SMap) (i : ℕ) (day : TripDay)
    (hi : days.get? i = some day) :
    ∃ dday : DerivedDay,
      (useItineraryCalculation gd days DS A S T).get? i = some dday ∧
      dday.dayId = day.dayId ∧ dday.date = day.date ∧ dday.title = day.title ∧
      dday.themeColor = day.themeColor ∧
      dday.spots.length = day.spots.length ∧
      ∀ k r, dday.spots.get? k = some r → day.spots.get? k = some r.toSpot := by
  refine ⟨deriveDay gd DS A S T day, ?_, rfl, rfl, rfl, rfl, ?_, ?_⟩
  · rw [useItineraryCalculation, List.get?_map, hi]
    rfl
  · exact processSpots_length gd A S T day.dayId day.spots 0 _
  · intro k r hr
    obtain ⟨spot, hspot, htospot, _⟩ :=
      processSpots_get? gd A S T day.dayId day.spots 0 _ k r hr
    rw [hspot, htospot]

/-- Witness for C9 at a concrete input. -/
theorem reference_fields_preserved_witness :
    [demoDay].get? 0 = some demoDay ∧
    (∃ dday : DerivedDay,
      (useItineraryCalculation (constDist "5.0") [demoDay] emptyMap emptyMap
        emptyMap emptyMap).get? 0 = some dday ∧
      dday.dayId = demoDay.dayId ∧ dday.date = demoDay.date ∧
      dday.title = demoDay.title ∧ dday.themeColor = demoDay.themeColor ∧
      dday.spots.length = demoDay.spots.length ∧
      ∀ k r, dday.spots.get? k = some r → demoDay.spots.get? k = some r.toSpot) :=
  ⟨rfl, reference_fields_preserved (constDist "5.0") [demoDay]
    emptyMap emptyMap emptyMap emptyMap 0 demoDay rfl⟩

/-- C1: for every day processed by the engine, when the resolved day start
string is well-formed `"HH:MM"`: the first stop's arrival time equals the
day's start-time override (or `"09:00"` when absent), and every later
stop's arrival time is the display of the previous stop's effective
departure plus the leg's travel minutes; whenever that sum is a
nonnegative integer `n`, the displayed arrival time denotes `n` reduced
modulo 1440 (24-hour wrap). -/
theorem arrival_chain_invariant (gd : ℚ → ℚ → ℚ → ℚ → String)
    (days : List TripDay) (DS A S T : SMap) (i : ℕ) (day : TripDay)
    (hi : days.get? i = some day)
    (hwf : WellFormedHHMM (jsOrDefault (DS day.dayId) "09:00")) :
    ∃ dday : DerivedDay,
      (useItineraryCalculation gd days DS A S T).get? i = some dday ∧
      (∀ r, dday.spots.get? 0 = some r →
        r.time = jsOrDefault (DS day.dayId) "09:00") ∧
      (∀ k r, dday.spots.get? (k + 1) = some r →
        r.time = minutesToTimeStr
          (jsAdd (dayEffDep gd DS A S T day k) (dayLegTravel gd T day k)) ∧
        ∀ n : ℤ, 0 ≤ n →
          jsAdd (dayEffDep gd DS A S T day k) (dayLegTravel gd T day k) =
            some ((n : ℚ)) →
          timeToMinutes r.time = some (((n % 1440 : ℤ) : ℚ))) := by
  refine ⟨deriveDay gd DS A S T day, ?_, ?_, ?_⟩
  · rw [useItineraryCalculation, List.get?_map, hi]
    rfl
  · intro r hr
    obtain ⟨spot, hspot, _, _, htime, _⟩ :=
      processSpots_get? gd A S T day.dayId day.spots 0 _ 0 r hr
    rw [htime]
    exact minutesToTimeStr_timeToMinutes _ hwf
  · intro k r hr
    obtain ⟨spot, hspot, _, _, htime, _⟩ :=
      processSpots_get? gd A S T day.dayId day.spots 0 _ (k + 1) r hr
    have hs1 : day.spots.get? (k + 1) = some spot := hspot
    have hk1 : k + 1 < day.spots.length := by
      rcases List.get?_eq_some.mp hs1 with ⟨h, _⟩
      exact h
    obtain ⟨a, ha⟩ : ∃ a, day.spots.get? k = some a := by
      cases h : day.spots.get? k with
      | none => exact absurd (List.get?_eq_none.mp h) (by omega)
      | some a => exact ⟨a, rfl⟩
    have hclock : dayClock gd DS A S T day (k + 1) =
        jsAdd (dayEffDep gd DS A S T day k) (dayLegTravel gd T day k) :=
      dayClock_succ gd DS A S T day k a spot ha hs1
    have htime2 : r.time = minutesToTimeStr
        (jsAdd (dayEffDep gd DS A S T day k) (dayLegTravel gd T day k)) := by
      rw [htime]
      exact congrArg minutesToTimeStr hclock
    refine ⟨htime2, ?_⟩
    intro n hn hsum
    rw [htime2, hsum]
    exact timeToMinutes_minutesToTimeStr n hn

/-- Witness for C1 at a concrete input. -/
theorem arrival_chain_invariant_witness :
    [demoDay].get? 0 = some demoDay ∧
    WellFormedHHMM (jsOrDefault (emptyMap demoDay.dayId) "09:00") ∧
    (∃ dday : DerivedDay,
      (useItineraryCalculation (constDist "5.0") [demoDay] emptyMap emptyMap
        emptyMap emptyMap).get? 0 = some dday ∧
      (∀ r, dday.spots.get? 0 = some r →
        r.time = jsOrDefault (emptyMap demoDay.dayId) "09:00") ∧
      (∀ k r, dday.spots.get? (k + 1) = some r →
        r.time = minutesToTimeStr
          (jsAdd (dayEffDep (constDist "5.0") emptyMap emptyMap emptyMap emptyMap demoDay k)
            (dayLegTravel (constDist "5.0") emptyMap demoDay k)) ∧
        ∀ n : ℤ, 0 ≤ n →
          jsAdd (dayEffDep (constDist "5.0") emptyMap emptyMap emptyMap emptyMap demoDay k)
            (dayLegTravel (constDist "5.0") emptyMap demoDay k) = some ((n : ℚ)) →
          timeToMinutes r.time = some (((n % 1440 : ℤ) : ℚ)))) :=
  ⟨rfl, ⟨9, 0, by omega, by omega, by decide⟩,
    arrival_chain_invariant (constDist "5.0") [demoDay] emptyMap emptyMap emptyMap
      emptyMap 0 demoDay rfl ⟨9, 0, by omega, by omega, by decide⟩⟩

/-- C5: a stop with a truthy actual-departure override is emitted with
`isDeparted = true` and `actualDepTime` equal to the override, and its
effective departure is the parsed override whatever the stay configuration
and arrival; a stop with no truthy override is emitted with
`isDeparted = false`, `actualDepTime = null`, and its effective departure
is its arrival clock plus the resolved stay duration. -/
theorem departure_override_behavior (gd : ℚ → ℚ → ℚ → ℚ → String)
    (days : List TripDay) (DS A S T : SMap) (i : ℕ) (day : TripDay)
    (hi : days.get? i = some day) (k : ℕ) :
    ∃ dday : DerivedDay,
      (useItineraryCalculation gd days DS A S T).get? i = some dday ∧
      (∀ v : String, A (spotIdOf day.dayId k) = some v → v ≠ "" →
        (∀ r, dday.spots.get? k = some r →
          r.isDeparted = true ∧ r.actualDepTime = some v) ∧
        (∀ (S2 : SMap) (arr : Option ℚ),
          stopEffDep A S2 (spotIdOf day.dayId k) arr = timeToMinutes v)) ∧
      (truthyStr (A (spotIdOf day.dayId k)) = false →
        (∀ r, dday.spots.get? k = some r →
          r.isDeparted = false ∧ r.actualDepTime = none) ∧
        dayEffDep gd DS A S T day k =
          jsAdd (dayClock gd DS A S T day k)
            (parseStayDuration (jsOrDefault (S (spotIdOf day.dayId k)) "1.5 hr"))) := by
  refine ⟨deriveDay gd DS A S T day, ?_, ?_, ?_⟩
  · rw [useItineraryCalculation, List.get?_map, hi]
    rfl
  · intro v hv hvne
    have htruthy : truthyStr (A (spotIdOf day.dayId k)) = true := by
      rw [hv]
      simp [truthyStr, hvne]
    constructor
    · intro r hr
      obtain ⟨spot, hspot, _, _, _, _, hdep, hadt, _⟩ :=
        processSpots_get? gd A S T day.dayId day.spots 0 _ k r hr
      simp only [Nat.zero_add] at hdep hadt
      rw [hdep, hadt, htruthy, if_pos rfl, hv]
      exact ⟨rfl, rfl⟩
    · intro S2 arr
      unfold stopEffDep
      rw [if_pos htruthy, hv]
      rfl
  · intro hfalse
    constructor
    · intro r hr
      obtain ⟨spot, hspot, _, _, _, _, hdep, hadt, _⟩ :=
        processSpots_get? gd A S T day.dayId day.spots 0 _ k r hr
      simp only [Nat.zero_add] at hdep hadt
      rw [hdep, hadt, hfalse]
      exact ⟨rfl, by simp⟩
    · unfold dayEffDep stopEffDep
      rw [if_neg (by rw [hfalse]; exact Bool.false_ne_true)]

/-- Witness for C5 at a concrete input (override `"11:30"` on the first
stop). -/
theorem departure_override_behavior_witness :
    [demoDay].get? 0 = some demoDay ∧
    (∃ dday : DerivedDay,
      (useItineraryCalculation (constDist "5.0") [demoDay] emptyMap
        (fun sid => if sid = "day1-s0" then some "11:30" else none)
        emptyMap emptyMap).get? 0 = some dday ∧
      (∀ v : String,
        (fun sid => if sid = "day1-s0" then some "11:30" else none)
          (spotIdOf demoDay.dayId 0) = some v → v ≠ "" →
        (∀ r, dday.spots.get? 0 = some r →
          r.isDeparted = true ∧ r.actualDepTime = some v) ∧
        (∀ (S2 : SMap) (arr : Option ℚ),
          stopEffDep (fun sid => if sid = "day1-s0" then some "11:30" else none)
            S2 (spotIdOf demoDay.dayId 0) arr = timeToMinutes v)) ∧
      (truthyStr ((fun sid => if sid = "day1-s0" then some "11:30" else none)
          (spotIdOf demoDay.dayId 0)) = false →
        (∀ r, dday.spots.get? 0 = some r →
          r.isDeparted = false ∧ r.actualDepTime = none) ∧
        dayEffDep (constDist "5.0") emptyMap
            (fun sid => if sid = "day1-s0" then some "11:30" else none)
            emptyMap emptyMap demoDay 0 =
          jsAdd (dayClock (constDist "5.0") emptyMap
              (fun sid => if sid = "day1-s0" then some "11:30" else none)
              emptyMap emptyMap demoDay 0)
            (parseStayDuration (jsOrDefault (emptyMap (spotIdOf demoDay.dayId 0))
              "1.5 hr")))) :=
  ⟨rfl, departure_override_behavior (constDist "5.0") [demoDay] emptyMap
    (fun sid => if sid = "day1-s0" then some "11:30" else none)
    emptyMap emptyMap 0 demoDay rfl 0⟩

/-- C10: an actual-departure entry holding the empty string is treated as
absent (the presence check is truthiness, not key existence): the record
has `isDeparted = false` and `actualDepTime = null`, and the effective
departure is the arrival clock plus the resolved stay duration. -/
theorem empty_override_treated_absent (gd : ℚ → ℚ → ℚ → ℚ → String)
    (days : List TripDay) (DS A S T : SMap) (i : ℕ) (day : TripDay)
    (hi : days.get? i = some day) (k : ℕ)
    (hempty : A (spotIdOf day.dayId k) = some "") :
    ∃ dday : DerivedDay,
      (useItineraryCalculation gd days DS A S T).get? i = some dday ∧
      (∀ r, dday.spots.get? k = some r →
        r.isDeparted = false ∧ r.actualDepTime = none) ∧
      dayEffDep gd DS A S T day k =
        jsAdd (dayClock gd DS A S T day k)
          (parseStayDuration (jsOrDefault (S (spotIdOf day.dayId k)) "1.5 hr")) := by
  have hfalse : truthyStr (A (spotIdOf day.dayId k)) = false := by
    rw [hempty]
    simp [truthyStr]
  obtain ⟨dday, hdd, _, hbranch⟩ :=
    departure_override_behavior gd days DS A S T i day hi k
  obtain ⟨hrec, heff⟩ := hbranch hfalse
  exact ⟨dday, hdd, hrec, heff⟩

/-- Witness for C10 at a concrete input (entry `""` on the first stop). -/
theorem empty_override_treated_absent_witness :
    [demoDay].get? 0 = some demoDay ∧
    (fun sid => if sid = "day1-s0" then some "" else none)
      (spotIdOf demoDay.dayId 0) = some "" ∧
    (∃ dday : DerivedDay,
      (useItineraryCalculation (constDist "5.0") [demoDay] emptyMap
        (fun sid => if sid = "day1-s0" then some "" else none)
        emptyMap emptyMap).get? 0 = some dday ∧
      (∀ r, dday.spots.get? 0 = some r →
        r.isDeparted = false ∧ r.actualDepTime = none) ∧
      dayEffDep (constDist "5.0") emptyMap
          (fun sid => if sid = "day1-s0" then some "" else none)
          emptyMap emptyMap demoDay 0 =
        jsAdd (dayClock (constDist "5.0") emptyMap
            (fun sid => if sid = "day1-s0" then some "" else none)
            emptyMap emptyMap demoDay 0)
          (parseStayDuration (jsOrDefault (emptyMap (spotIdOf demoDay.dayId 0))
            "1.5 hr"))) :=
  ⟨rfl, by decide,
    empty_override_treated_absent (constDist "5.0") [demoDay] emptyMap
      (fun sid => if sid = "day1-s0" then some "" else none)
      emptyMap emptyMap 0 demoDay rfl 0 (by decide)⟩

/-- C2: for a leg whose distance string has numeric value `d`: in car mode
(the default) the next stop's arrival is the previous effective departure
plus `round(d/40*60) + 10` minutes, and in walk mode plus
`round(d/4*60)` minutes, displayed modulo 1440. -/
theorem travel_minutes_formula (gd : ℚ → ℚ → ℚ → ℚ → String)
    (days : List TripDay) (DS A S T : SMap) (i : ℕ) (day : TripDay)
    (hi : days.get? i = some day) (k : ℕ) (a b : Spot)
    (ha : day.spots.get? k = some a) (hb : day.spots.get? (k + 1) = some b)
    (d : ℚ) (hd : jsNumber (gd a.lat a.lon b.lat b.lon) = some d) (hd0 : 0 ≤ d)
    (me : ℤ) (hme : dayEffDep gd DS A S T day k = some ((me : ℚ))) (hme0 : 0 ≤ me) :
    ∃ dday : DerivedDay,
      (useItineraryCalculation gd days DS A S T).get? i = some dday ∧
      ∀ r, dday.spots.get? (k + 1) = some r →
        (jsOrDefault (T (spotIdOf day.dayId k)) "car" = "car" →
          timeToMinutes r.time =
            some ((((me + ⌊d / 40 * 60 + 1/2⌋ + 10) % 1440 : ℤ) : ℚ))) ∧
        (jsOrDefault (T (spotIdOf day.dayId k)) "car" = "walk" →
          timeToMinutes r.time =
            some ((((me + ⌊d / 4 * 60 + 1/2⌋) % 1440 : ℤ) : ℚ))) := by
  refine ⟨deriveDay gd DS A S T day, ?_, ?_⟩
  · rw [useItineraryCalculation, List.get?_map, hi]
    rfl
  · intro r hr
    obtain ⟨spot, hspot, _, _, htime, _⟩ :=
      processSpots_get? gd A S T day.dayId day.spots 0 _ (k + 1) r hr
    have hclock : dayClock gd DS A S T day (k + 1) =
        jsAdd (dayEffDep gd DS A S T day k) (dayLegTravel gd T day k) :=
      dayClock_succ gd DS A S T day k a b ha hb
    have htime2 : r.time = minutesToTimeStr (dayClock gd DS A S T day (k + 1)) :=
      htime
    constructor
    · intro hmode
      have htrav : dayLegTravel gd T day k =
          some (((⌊d / 40 * 60 + 1/2⌋ + 10 : ℤ) : ℚ)) := by
        unfold dayLegTravel
        rw [ha, hb]
        exact legTravel_car gd T _ a b d hd hmode
      have hsum : jsAdd (dayEffDep gd DS A S T day k) (dayLegTravel gd T day k) =
          some (((me + ⌊d / 40 * 60 + 1/2⌋ + 10 : ℤ) : ℚ)) := by
        rw [hme, htrav]
        simp only [jsAdd, Option.some.injEq]
        push_cast
        ring
      have hfl : (0:ℤ) ≤ ⌊d / 40 * 60 + 1/2⌋ :=
        Int.floor_nonneg.mpr
          (by nlinarith [mul_nonneg (div_nonneg hd0 (by norm_num : (0:ℚ) ≤ 40)) (by norm_num : (0:ℚ) ≤ 60)])
      rw [htime2, hclock, hsum]
      exact timeToMinutes_minutesToTimeStr _ (by omega)
    · intro hmode
      have htrav : dayLegTravel gd T day k =
          some (((⌊d / 4 * 60 + 1/2⌋ : ℤ) : ℚ)) := by
        unfold dayLegTravel
        rw [ha, hb]
        exact legTravel_walk gd T _ a b d hd hmode
      have hsum : jsAdd (dayEffDep gd DS A S T day k) (dayLegTravel gd T day k) =
          some (((me + ⌊d / 4 * 60 + 1/2⌋ : ℤ) : ℚ)) := by
        rw [hme, htrav]
        simp only [jsAdd, Option.some.injEq]
        push_cast
        ring
      have hfl : (0:ℤ) ≤ ⌊d / 4 * 60 + 1/2⌋ :=
        Int.floor_nonneg.mpr
          (by nlinarith [mul_nonneg (div_nonneg hd0 (by norm_num : (0:ℚ) ≤ 4)) (by norm_num : (0:ℚ) ≤ 60)])
      rw [htime2, hclock, hsum]
      exact timeToMinutes_minutesToTimeStr _ (by omega)

/-- The concrete effective departure used by the C2 witness: default start
`"09:00"` (540) plus the default `"1.5 hr"` stay (90) gives 630. -/
theorem dayEffDep_demo59 :
    dayEffDep (constDist "5.9") emptyMap emptyMap emptyMap emptyMap demoDay 0 =
      some (((630 : ℤ) : ℚ)) := by
  have hbase : dayEffDep (constDist "5.9") emptyMap emptyMap emptyMap emptyMap demoDay 0 =
      jsAdd (timeToMinutes "09:00") (parseStayDuration "1.5 hr") := rfl
  rw [hbase, time_0900, stay_90]
  simp only [jsAdd, Option.some.injEq]
  norm_num

/-- Witness for C2 at a concrete input (distance string `"5.9"`, default
car mode, effective departure 630 = 10:30). -/
theorem travel_minutes_formula_witness :
    [demoDay].get? 0 = some demoDay ∧
    demoDay.spots.get? 0 = some tokyoSpot ∧
    demoDay.spots.get? 1 = some towerSpot ∧
    jsNumber (constDist "5.9" tokyoSpot.lat tokyoSpot.lon towerSpot.lat towerSpot.lon) =
      some (59 / 10) ∧
    (∃ dday : DerivedDay,
      (useItineraryCalculation (constDist "5.9") [demoDay] emptyMap emptyMap
        emptyMap emptyMap).get? 0 = some dday ∧
      ∀ r, dday.spots.get? (0 + 1) = some r →
        (jsOrDefault (emptyMap (spotIdOf demoDay.dayId 0)) "car" = "car" →
          timeToMinutes r.time =
            some ((((630 + ⌊(59 / 10 : ℚ) / 40 * 60 + 1/2⌋ + 10) % 1440 : ℤ) : ℚ))) ∧
        (jsOrDefault (emptyMap (spotIdOf demoDay.dayId 0)) "car" = "walk" →
          timeToMinutes r.time =
            some ((((630 + ⌊(59 / 10 : ℚ) / 4 * 60 + 1/2⌋) % 1440 : ℤ) : ℚ)))) :=
  ⟨rfl, rfl, rfl, jsNumber_59,
    travel_minutes_formula (constDist "5.9") [demoDay] emptyMap emptyMap emptyMap
      emptyMap 0 demoDay rfl 0 tokyoSpot towerSpot rfl rfl (59 / 10) jsNumber_59
      (by norm_num) 630 dayEffDep_demo59 (by norm_num)⟩

/-- The display walk minutes of the demo leg with distance string `"4.0"`
come to exactly 60. -/
theorem displayWalkMins_40 :
    displayWalkMins (constDist "4.0") tokyoSpot towerSpot = some (((60 : ℤ) : ℚ)) := by
  unfold displayWalkMins
  rw [show jsNumber (constDist "4.0" tokyoSpot.lat tokyoSpot.lon towerSpot.lat
    towerSpot.lon) = some 4 from jsNumber_40]
  simp only [jsDiv, jsMul, jsRound, Option.map_some']
  norm_num

/-- C6 counterexample: a leg display duration of exactly 60 minutes is
formatted `"60m"`, not `"1h0m"` (the code tests `> 60`, not `≥ 60`),
falsifying the claim at the concrete distance `"4.0"` in walk display. -/
theorem sixty_minute_format_counterexample :
    displayWalkMins (constDist "4.0") tokyoSpot towerSpot = some (((60 : ℤ) : ℚ)) ∧
    fmtDur (displayWalkMins (constDist "4.0") tokyoSpot towerSpot) = "60m" ∧
    ((useItineraryCalculation (constDist "4.0") [demoDay] emptyMap emptyMap
        emptyMap emptyMap).get? 0).map
      (fun dd => (dd.spots.get? 0).map
        (fun r => r.nextStop.map (fun info => info.walkTime))) =
      some (some (some "60m")) ∧
    "60m" ≠ "1h0m" := by
  have h60 : fmtDur (displayWalkMins (constDist "4.0") tokyoSpot towerSpot) = "60m" := by
    rw [displayWalkMins_40, fmtDur_int 60 (by norm_num), if_neg (by norm_num)]
    decide
  refine ⟨displayWalkMins_40, h60, ?_, by decide⟩
  have hproj : ((useItineraryCalculation (constDist "4.0") [demoDay] emptyMap emptyMap
      emptyMap emptyMap).get? 0).map
      (fun dd => (dd.spots.get? 0).map
        (fun r => r.nextStop.map (fun info => info.walkTime))) =
      some (some (some (fmtDur (displayWalkMins (constDist "4.0") tokyoSpot
        towerSpot)))) := rfl
  rw [hproj, h60]

/-- C6 amended: every leg's display drive and walk strings are the
`fmtDur` formatting of the display minutes, and for a nonnegative integer
duration `n` the format is `"{H}h{M}m"` exactly when `n` is strictly
greater than 60 and `"{M}m"` when `n ≤ 60` — in particular 60 minutes
formats as `"60m"`. -/
theorem duration_format_amended (gd : ℚ → ℚ → ℚ → ℚ → String)
    (days : List TripDay) (DS A S T : SMap) (i : ℕ) (day : TripDay)
    (hi : days.get? i = some day) (k : ℕ) (a b : Spot)
    (ha : day.spots.get? k = some a) (hb : day.spots.get? (k + 1) = some b) :
    ∃ dday : DerivedDay,
      (useItineraryCalculation gd days DS A S T).get? i = some dday ∧
      (∀ r, dday.spots.get? k = some r →
        r.nextStop = some (mkNextStopInfo gd T (spotIdOf day.dayId k) a b) ∧
        (mkNextStopInfo gd T (spotIdOf day.dayId k) a b).driveTime =
          fmtDur (displayDriveMins gd a b) ∧
        (mkNextStopInfo gd T (spotIdOf day.dayId k) a b).walkTime =
          fmtDur (displayWalkMins gd a b)) ∧
      (∀ n : ℤ, 0 ≤ n →
        (60 < n → fmtDur (some ((n : ℚ))) =
          toString (n / 60) ++ "h" ++ toString (n % 60) ++ "m") ∧
        (n ≤ 60 → fmtDur (some ((n : ℚ))) = toString n ++ "m")) := by
  refine ⟨deriveDay gd DS A S T day, ?_, ?_, ?_⟩
  · rw [useItineraryCalculation, List.get?_map, hi]
    rfl
  · intro r hr
    obtain ⟨spot, hspot, _, _, _, _, _, _, _, _, _, _, hmatch⟩ :=
      processSpots_get? gd A S T day.dayId day.spots 0 _ k r hr
    have hsa : spot = a := by
      rw [hspot] at ha
      exact (Option.some.injEq _ _).mp ha.symm |>.symm
    rw [hb] at hmatch
    obtain ⟨hnext, _⟩ := hmatch
    subst hsa
    refine ⟨?_, rfl, rfl⟩
    simpa using hnext
  · intro n hn
    constructor
    · intro h
      rw [fmtDur_int n hn, if_pos h]
    · intro h
      rw [fmtDur_int n hn, if_neg (by omega)]

/-- Witness for C6's amended claim at a concrete input. -/
theorem duration_format_amended_witness :
    [demoDay].get? 0 = some demoDay ∧
    demoDay.spots.get? 0 = some tokyoSpot ∧
    demoDay.spots.get? 1 = some towerSpot ∧
    (∃ dday : DerivedDay,
      (useItineraryCalculation (constDist "4.0") [demoDay] emptyMap emptyMap
        emptyMap emptyMap).get? 0 = some dday ∧
      (∀ r, dday.spots.get? 0 = some r →
        r.nextStop = some (mkNextStopInfo (constDist "4.0") emptyMap
          (spotIdOf demoDay.dayId 0) tokyoSpot towerSpot) ∧
        (mkNextStopInfo (constDist "4.0") emptyMap
          (spotIdOf demoDay.dayId 0) tokyoSpot towerSpot).driveTime =
          fmtDur (displayDriveMins (constDist "4.0") tokyoSpot towerSpot) ∧
        (mkNextStopInfo (constDist "4.0") emptyMap
          (spotIdOf demoDay.dayId 0) tokyoSpot towerSpot).walkTime =
          fmtDur (displayWalkMins (constDist "4.0") tokyoSpot towerSpot)) ∧
      (∀ n : ℤ, 0 ≤ n →
        (60 < n → fmtDur (some ((n : ℚ))) =
          toString (n / 60) ++ "h" ++ toString (n % 60) ++ "m") ∧
        (n ≤ 60 → fmtDur (some ((n : ℚ))) = toString n ++ "m"))) :=
  ⟨rfl, rfl, rfl,
    duration_format_amended (constDist "4.0") [demoDay] emptyMap emptyMap emptyMap
      emptyMap 0 demoDay rfl 0 tokyoSpot towerSpot rfl rfl⟩

/-- C3: the code does not parse defensively — a malformed day start-time
override (non-numeric `"HH:MM"` parts) makes `timeToMinutes` return `NaN`,
which propagates through the running clock into every stop of the day:
both displayed arrival times render `"NaN:NaN"` instead of the 540-minute
(`"09:00"`) fallback the specification requires. -/
theorem nan_propagates_from_malformed_start :
    timeToMinutes "ab:cd" = none ∧
    ((useItineraryCalculation (constDist "5.0") [demoDay]
        (fun key => if key = "day1" then some "ab:cd" else none)
        emptyMap emptyMap emptyMap).get? 0).map
      (fun dd => dd.spots.map (fun r => r.time)) =
      some ["NaN:NaN", "NaN:NaN"] ∧
    "NaN:NaN" ≠ "09:00" := by
  refine ⟨by decide, by decide, by decide⟩

/-- The half-angle form of the cosine. -/
theorem cos_eq_one_sub_two_sin_sq_half (x : ℝ) :
    Real.cos x = 1 - 2 * Real.sin (x / 2) ^ 2 := by
  have h2 : (2:ℝ) * (x / 2) = x := by ring
  have h3 := Real.cos_two_mul (x / 2)
  rw [h2] at h3
  have h4 := Real.sin_sq_add_cos_sq (x / 2)
  nlinarith [h3, h4]

/-- Lower interval bound for the sine from the cubic Taylor bound. -/
theorem sin_lb_of_bounds (x lo hi : ℝ) (hlo : lo ≤ x) (hhi : x ≤ hi)
    (h0 : 0 < lo) (h1 : hi ≤ 1) :
    lo - hi ^ 3 / 6 - hi ^ 4 * (5 / 96) ≤ Real.sin x := by
  have habs : |x| ≤ 1 := by
    rw [abs_of_nonneg (by linarith)]
    linarith
  have hb := (abs_le.mp (Real.sin_bound habs)).1
  have habs4 : |x| ^ 4 = x ^ 4 := by
    rw [abs_of_nonneg (by linarith)]
  rw [habs4] at hb
  have hx3 : x ^ 3 ≤ hi ^ 3 := pow_le_pow_left (by linarith) hhi 3
  have hx4 : x ^ 4 ≤ hi ^ 4 := pow_le_pow_left (by linarith) hhi 4
  linarith [hb, hx3, hx4]

/-- Upper interval bound for the sine from the cubic Taylor bound. -/
theorem sin_ub_of_bounds (x lo hi : ℝ) (hlo : lo ≤ x) (hhi : x ≤ hi)
    (h0 : 0 < lo) (h1 : hi ≤ 1) :
    Real.sin x ≤ hi - lo ^ 3 / 6 + hi ^ 4 * (5 / 96) := by
  have habs : |x| ≤ 1 := by
    rw [abs_of_nonneg (by linarith)]
    linarith
  have hb := (abs_le.mp (Real.sin_bound habs)).2
  have habs4 : |x| ^ 4 = x ^ 4 := by
    rw [abs_of_nonneg (by linarith)]
  rw [habs4] at hb
  have hx3 : lo ^ 3 ≤ x ^ 3 := pow_le_pow_left (by linarith) hlo 3
  have hx4 : x ^ 4 ≤ hi ^ 4 := pow_le_pow_left (by linarith) hhi 4
  linarith [hb, hx3, hx4]

set_option maxHeartbeats 2000000 in
/-- Interval bounds for the haversine distance between the scenario's
coordinates (35.6895, 139.6917) and (35.6586, 139.7454): it lies between
5.93 and 5.948 km — in particular nowhere near the 5.3 km the
specification's scenario assumes. -/
theorem haversine_demo_bounds :
    (5.93:ℝ) ≤ haversineKmReal 35.6895 139.6917 35.6586 139.7454 ∧
    haversineKmReal 35.6895 139.6917 35.6586 139.7454 ≤ 5.948 := by
  have hπ1 : (3.141592:ℝ) < Real.pi := Real.pi_gt_d6
  have hπ2 : Real.pi < 3.141593 := Real.pi_lt_d6
  simp only [haversineKmReal]
  have harg1 : ((35.6586:ℝ) - 35.6895) * (Real.pi / 180) / 2 =
      -(0.0309 * Real.pi / 360) := by
    rw [show ((35.6586:ℝ) - 35.6895) = -0.0309 by norm_num]
    ring
  have harg2 : ((139.7454:ℝ) - 139.6917) * (Real.pi / 180) / 2 =
      0.0537 * Real.pi / 360 := by
    rw [show ((139.7454:ℝ) - 139.6917) = 0.0537 by norm_num]
    ring
  set u : ℝ := 0.0309 * Real.pi / 360 with hu_def
  set v : ℝ := 0.0537 * Real.pi / 360 with hv_def
  have hu1 : (0.00026965:ℝ) ≤ u := by rw [hu_def]; linarith
  have hu2 : u ≤ 0.00026966 := by rw [hu_def]; linarith
  have hv1 : (0.00046862:ℝ) ≤ v := by rw [hv_def]; linarith
  have hv2 : v ≤ 0.00046863 := by rw [hv_def]; linarith
  have hsinu_ub : Real.sin u ≤ 0.00026966 :=
    le_trans (le_of_lt (Real.sin_lt (by linarith))) hu2
  have hsinu_lb : (0.000269:ℝ) ≤ Real.sin u := by
    have hc := Real.sin_gt_sub_cube (show (0:ℝ) < u by linarith)
      (show u ≤ 1 by linarith)
    have hu3 : u ^ 3 ≤ 0.00026966 ^ 3 := pow_le_pow_left (by linarith) hu2 3
    have hnum : (0.00026966:ℝ) ^ 3 ≤ 0.00000000002 := by norm_num
    linarith
  have hsinu_nn : (0:ℝ) ≤ Real.sin u := by linarith
  have hsinv_ub : Real.sin v ≤ 0.00046863 :=
    le_trans (le_of_lt (Real.sin_lt (by linarith))) hv2
  have hsinv_lb : (0.00046861:ℝ) ≤ Real.sin v := by
    have hc := Real.sin_gt_sub_cube (show (0:ℝ) < v by linarith)
      (show v ≤ 1 by linarith)
    have hv3 : v ^ 3 ≤ 0.00046863 ^ 3 := pow_le_pow_left (by linarith) hv2 3
    have hnum : (0.00046863:ℝ) ^ 3 ≤ 0.00000000011 := by norm_num
    linarith
  have hsinv_nn : (0:ℝ) ≤ Real.sin v := by linarith
  have ht1a : (0.3114495:ℝ) ≤ 35.6895 * (Real.pi / 180) / 2 := by linarith
  have ht1b : 35.6895 * (Real.pi / 180) / 2 ≤ 0.3114497 := by linarith
  have ht2a : (0.3111799:ℝ) ≤ 35.6586 * (Real.pi / 180) / 2 := by linarith
  have ht2b : 35.6586 * (Real.pi / 180) / 2 ≤ 0.3111801 := by linarith
  have hsint1_lb := sin_lb_of_bounds _ _ _ ht1a ht1b (by norm_num) (by norm_num)
  have hsint1_ub := sin_ub_of_bounds _ _ _ ht1a ht1b (by norm_num) (by norm_num)
  have hsint2_lb := sin_lb_of_bounds _ _ _ ht2a ht2b (by norm_num) (by norm_num)
  have hsint2_ub := sin_ub_of_bounds _ _ _ ht2a ht2b (by norm_num) (by norm_num)
  have hn1a : (0.3059242:ℝ) ≤ 0.3114495 - 0.3114497 ^ 3 / 6 - 0.3114497 ^ 4 * (5 / 96) := by
    norm_num
  have hn1b : (0.3114497:ℝ) - 0.3114495 ^ 3 / 6 + 0.3114497 ^ 4 * (5 / 96) ≤ 0.3069047 := by
    norm_num
  have hn2a : (0.3056694:ℝ) ≤ 0.3111799 - 0.3111801 ^ 3 / 6 - 0.3111801 ^ 4 * (5 / 96) := by
    norm_num
  have hn2b : (0.3111801:ℝ) - 0.3111799 ^ 3 / 6 + 0.3111801 ^ 4 * (5 / 96) ≤ 0.3066465 := by
    norm_num
  have hs1_lb : (0.3059242:ℝ) ≤ Real.sin (35.6895 * (Real.pi / 180) / 2) := by linarith
  have hs1_ub : Real.sin (35.6895 * (Real.pi / 180) / 2) ≤ 0.3069047 := by linarith
  have hs2_lb : (0.3056694:ℝ) ≤ Real.sin (35.6586 * (Real.pi / 180) / 2) := by linarith
  have hs2_ub : Real.sin (35.6586 * (Real.pi / 180) / 2) ≤ 0.3066465 := by linarith
  have hsq1_ub : Real.sin (35.6895 * (Real.pi / 180) / 2) ^ 2 ≤ 0.3069047 ^ 2 :=
    pow_le_pow_left (by linarith) hs1_ub 2
  have hsq1_lb : (0.3059242:ℝ) ^ 2 ≤ Real.sin (35.6895 * (Real.pi / 180) / 2) ^ 2 :=
    pow_le_pow_left (by norm_num) hs1_lb 2
  have hsq2_ub : Real.sin (35.6586 * (Real.pi / 180) / 2) ^ 2 ≤ 0.3066465 ^ 2 :=
    pow_le_pow_left (by linarith) hs2_ub 2
  have hsq2_lb : (0.3056694:ℝ) ^ 2 ≤ Real.sin (35.6586 * (Real.pi / 180) / 2) ^ 2 :=
    pow_le_pow_left (by norm_num) hs2_lb 2
  have hnsq1a : (0.3069047:ℝ) ^ 2 ≤ 0.0941906 := by norm_num
  have hnsq1b : (0.0935895:ℝ) ≤ 0.3059242 ^ 2 := by norm_num
  have hnsq2a : (0.3066465:ℝ) ^ 2 ≤ 0.0940322 := by norm_num
  have hnsq2b : (0.0934337:ℝ) ≤ 0.3056694 ^ 2 := by norm_num
  have hcos1 := cos_eq_one_sub_two_sin_sq_half (35.6895 * (Real.pi / 180))
  have hcos2 := cos_eq_one_sub_two_sin_sq_half (35.6586 * (Real.pi / 180))
  have hcos1_lb : (0.8116188:ℝ) ≤ Real.cos (35.6895 * (Real.pi / 180)) := by
    rw [hcos1]; linarith
  have hcos1_ub : Real.cos (35.6895 * (Real.pi / 180)) ≤ 0.8128210 := by
    rw [hcos1]; linarith
  have hcos2_lb : (0.8119356:ℝ) ≤ Real.cos (35.6586 * (Real.pi / 180)) := by
    rw [hcos2]; linarith
  have hcos2_ub : Real.cos (35.6586 * (Real.pi / 180)) ≤ 0.8131326 := by
    rw [hcos2]; linarith
  have hcos1_nn : (0:ℝ) ≤ Real.cos (35.6895 * (Real.pi / 180)) := by linarith
  have hcos2_nn : (0:ℝ) ≤ Real.cos (35.6586 * (Real.pi / 180)) := by linarith
  rw [harg1, harg2, Real.sin_neg]
  set c1 : ℝ := Real.cos (35.6895 * (Real.pi / 180)) with hc1_def
  set c2 : ℝ := Real.cos (35.6586 * (Real.pi / 180)) with hc2_def
  set su : ℝ := Real.sin u with hsu_def
  set sv : ℝ := Real.sin v with hsv_def
  have hsusq_ub : su * su ≤ 0.00026966 * 0.00026966 :=
    mul_le_mul hsinu_ub hsinu_ub hsinu_nn (by norm_num)
  have hsusq_lb : (0.000269:ℝ) * 0.000269 ≤ su * su :=
    mul_le_mul hsinu_lb hsinu_lb (by norm_num) hsinu_nn
  have hsvsq_ub : sv * sv ≤ 0.00046863 * 0.00046863 :=
    mul_le_mul hsinv_ub hsinv_ub hsinv_nn (by norm_num)
  have hsvsq_lb : (0.00046861:ℝ) * 0.00046861 ≤ sv * sv :=
    mul_le_mul hsinv_lb hsinv_lb (by norm_num) hsinv_nn
  have hP_ub : c1 * c2 ≤ 0.8128210 * 0.8131326 :=
    mul_le_mul hcos1_ub hcos2_ub hcos2_nn (by norm_num)
  have hP_lb : (0.8116188:ℝ) * 0.8119356 ≤ c1 * c2 :=
    mul_le_mul hcos1_lb hcos2_lb (by norm_num) hcos1_nn
  have hP_nn : (0:ℝ) ≤ c1 * c2 := mul_nonneg hcos1_nn hcos2_nn
  have hM2_ub : c1 * c2 * sv ≤ (0.8128210 * 0.8131326) * 0.00046863 :=
    mul_le_mul hP_ub hsinv_ub hsinv_nn (by norm_num)
  have hM2_lb : (0.8116188 * 0.8119356) * 0.00046861 ≤ c1 * c2 * sv :=
    mul_le_mul hP_lb hsinv_lb (by norm_num) hP_nn
  have hM2_nn : (0:ℝ) ≤ c1 * c2 * sv := mul_nonneg hP_nn hsinv_nn
  have hM3_ub : c1 * c2 * sv * sv ≤ ((0.8128210 * 0.8131326) * 0.00046863) * 0.00046863 :=
    mul_le_mul hM2_ub hsinv_ub hsinv_nn (by norm_num)
  have hM3_lb : ((0.8116188 * 0.8119356) * 0.00046861) * 0.00046861 ≤ c1 * c2 * sv * sv :=
    mul_le_mul hM2_lb hsinv_lb (by norm_num) hM2_nn
  have hnum_lb : (2.17069e-7:ℝ) ≤
      0.000269 * 0.000269 + ((0.8116188 * 0.8119356) * 0.00046861) * 0.00046861 := by
    norm_num
  have hnum_ub : (0.00026966:ℝ) * 0.00026966 +
      ((0.8128210 * 0.8131326) * 0.00046863) * 0.00046863 ≤ 2.17868e-7 := by
    norm_num
  set a : ℝ := -su * -su + c1 * c2 * sv * sv with ha_def
  have hsusq : -su * -su = su * su := by ring
  have ha_lb : (2.17069e-7:ℝ) ≤ a := by
    rw [ha_def, hsusq]
    linarith
  have ha_ub : a ≤ 2.17868e-7 := by
    rw [ha_def, hsusq]
    linarith
  have ha_nn : (0:ℝ) ≤ a := by linarith
  have hsq_lb : (0.00046588:ℝ) ≤ Real.sqrt a := by
    rw [show (0.00046588:ℝ) = Real.sqrt (0.00046588 ^ 2) from
      (Real.sqrt_sq (by norm_num)).symm]
    apply Real.sqrt_le_sqrt
    have : (0.00046588:ℝ) ^ 2 ≤ 2.17069e-7 := by norm_num
    linarith
  have hsq_ub : Real.sqrt a ≤ 0.00046677 := by
    rw [show (0.00046677:ℝ) = Real.sqrt (0.00046677 ^ 2) from
      (Real.sqrt_sq (by norm_num)).symm]
    apply Real.sqrt_le_sqrt
    have : (2.17868e-7:ℝ) ≤ 0.00046677 ^ 2 := by norm_num
    linarith
  have hsq_lt1 : Real.sqrt a < 1 := by linarith
  have hid : Real.arctan (Real.sqrt a / Real.sqrt (1 - a)) =
      Real.arcsin (Real.sqrt a) := by
    have hmem : Real.sqrt a ∈ Set.Ioo (-(1:ℝ)) 1 :=
      ⟨by linarith [Real.sqrt_nonneg a], hsq_lt1⟩
    have h := Real.arcsin_eq_arctan hmem
    rw [Real.sq_sqrt ha_nn] at h
    exact h.symm
  rw [hid]
  have hπ3 : (3:ℝ) < Real.pi := Real.pi_gt_three
  have harc_lb : (0.00046588:ℝ) ≤ Real.arcsin (Real.sqrt a) := by
    have hs : Real.sin 0.00046588 ≤ Real.sqrt a :=
      le_trans (le_of_lt (Real.sin_lt (by norm_num))) hsq_lb
    have hmono := Real.monotone_arcsin hs
    rwa [Real.arcsin_sin (by linarith) (by linarith)] at hmono
  have harc_ub : Real.arcsin (Real.sqrt a) ≤ 0.00046678 := by
    have hc := Real.sin_gt_sub_cube (show (0:ℝ) < 0.00046678 by norm_num)
      (by norm_num)
    have hnum3 : (0.00046678:ℝ) ^ 3 / 4 ≤ 0.00000001 := by norm_num
    have hs : Real.sqrt a ≤ Real.sin 0.00046678 := by linarith
    have hmono := Real.monotone_arcsin hs
    rwa [Real.arcsin_sin (by linarith) (by linarith)] at hmono
  constructor
  · linarith
  · linarith

/-- The one-decimal distance string of the scenario leg is `"5.9"`. -/
theorem getDistance_demo :
    getDistanceFromLatLonInKm tokyoSpot.lat tokyoSpot.lon towerSpot.lat
      towerSpot.lon = "5.9" := by
  obtain ⟨hlo, hhi⟩ := haversine_demo_bounds
  have hcast : haversineKmReal ((tokyoSpot.lat : ℚ) : ℝ) ((tokyoSpot.lon : ℚ) : ℝ)
      ((towerSpot.lat : ℚ) : ℝ) ((towerSpot.lon : ℚ) : ℝ) =
      haversineKmReal 35.6895 139.6917 35.6586 139.7454 := by
    rw [show ((tokyoSpot.lat : ℚ) : ℝ) = (35.6895:ℝ) by norm_num [tokyoSpot],
      show ((tokyoSpot.lon : ℚ) : ℝ) = (139.6917:ℝ) by norm_num [tokyoSpot],
      show ((towerSpot.lat : ℚ) : ℝ) = (35.6586:ℝ) by norm_num [towerSpot],
      show ((towerSpot.lon : ℚ) : ℝ) = (139.7454:ℝ) by norm_num [towerSpot]]
  unfold getDistanceFromLatLonInKm toFixed1
  rw [hcast]
  have hfl : ⌊haversineKmReal (35.6895:ℝ) 139.6917 35.6586 139.7454 * 10 + 1/2⌋ =
      (59:ℤ) := by
    rw [Int.floor_eq_iff]
    constructor
    · push_cast
      linarith
    · push_cast
      linarith
  rw [hfl]
  decide

/-- The car travel minutes of the scenario leg: `round(5.9/40*60) + 10 = 19`. -/
theorem legTravel_scenario :
    legTravel getDistanceFromLatLonInKm scenarioModes (spotIdOf demoDay.dayId 0)
      tokyoSpot towerSpot = some 19 := by
  have hd : jsNumber (getDistanceFromLatLonInKm tokyoSpot.lat tokyoSpot.lon
      towerSpot.lat towerSpot.lon) = some (59 / 10) := by
    rw [getDistance_demo]
    exact jsNumber_59
  have hmode : jsOrDefault (scenarioModes (spotIdOf demoDay.dayId 0)) "car" =
      "car" := by decide
  rw [legTravel_car getDistanceFromLatLonInKm scenarioModes _ tokyoSpot towerSpot
    (59 / 10) hd hmode]
  have hfl : ⌊(59 / 10 : ℚ) / 40 * 60 + 1/2⌋ = (9:ℤ) := by
    rw [Int.floor_eq_iff]
    constructor <;> norm_num
  rw [hfl]
  norm_num

/-- The effective departure of the scenario's first stop: 540 + 90 = 630
minutes (10:30). -/
theorem dayEffDep_scenario :
    dayEffDep getDistanceFromLatLonInKm scenarioStart emptyMap scenarioStays
      scenarioModes demoDay 0 = some 630 := by
  have hbase : dayEffDep getDistanceFromLatLonInKm scenarioStart emptyMap
      scenarioStays scenarioModes demoDay 0 =
      jsAdd (timeToMinutes "09:00") (parseStayDuration "1.5 hr") := rfl
  rw [hbase, time_0900, stay_90]
  simp only [jsAdd, Option.some.injEq]
  norm_num

/-- C7 counterexample: at the specification's end-to-end scenario (start
`"09:00"`, stay `"1.5 hr"`, car mode, the two Tokyo coordinates) the
engine computes the next-stop arrival `"10:49"`, not the `"10:48"` the
claim asserts: the haversine distance rounds to 5.9 km, not ~5.3 km. -/
theorem scenario_travel_time_counterexample :
    ((useItineraryCalculation getDistanceFromLatLonInKm [demoDay] scenarioStart
        emptyMap scenarioStays scenarioModes).get? 0).map
      (fun dd => (dd.spots.get? 0).map (fun r => r.nextArrivalTime)) =
      some (some "10:49") ∧
    "10:49" ≠ "10:48" := by
  have hproj : ((useItineraryCalculation getDistanceFromLatLonInKm [demoDay]
      scenarioStart emptyMap scenarioStays scenarioModes).get? 0).map
      (fun dd => (dd.spots.get? 0).map (fun r => r.nextArrivalTime)) =
      some (some (minutesToTimeStr (jsAdd
        (dayEffDep getDistanceFromLatLonInKm scenarioStart emptyMap scenarioStays
          scenarioModes demoDay 0)
        (legTravel getDistanceFromLatLonInKm scenarioModes
          (spotIdOf demoDay.dayId 0) tokyoSpot towerSpot)))) := rfl
  rw [hproj, dayEffDep_scenario, legTravel_scenario]
  have hsum : jsAdd (some (630:ℚ)) (some 19) = some 649 := by
    simp only [jsAdd, Option.some.injEq]
    norm_num
  rw [hsum]
  have hdisp : minutesToTimeStr (some (649:ℚ)) = "10:49" := by
    rw [show ((649:ℚ)) = (((649:ℤ)):ℚ) by norm_num,
      minutesToTimeStr_int 649 (by norm_num)]
    decide
  rw [hdisp]
  exact ⟨rfl, by decide⟩

/-- C7 amended: at the scenario input the engine produces effective
departure `"10:30"` for stop 0 as claimed, but the haversine distance
rounds to 5.9 km (not ~5.3), so the leg travel minutes are
`round(5.9/40*60) + 10 = 19` (not 18) and the next-stop arrival is
`"10:49"` (not `"10:48"`). -/
theorem scenario_amended :
    getDistanceFromLatLonInKm tokyoSpot.lat tokyoSpot.lon towerSpot.lat
      towerSpot.lon = "5.9" ∧
    minutesToTimeStr (dayEffDep getDistanceFromLatLonInKm scenarioStart emptyMap
      scenarioStays scenarioModes demoDay 0) = "10:30" ∧
    dayLegTravel getDistanceFromLatLonInKm scenarioModes demoDay 0 = some 19 ∧
    ((useItineraryCalculation getDistanceFromLatLonInKm [demoDay] scenarioStart
        emptyMap scenarioStays scenarioModes).get? 0).map
      (fun dd => (dd.spots.get? 0).map (fun r => r.nextArrivalTime)) =
      some (some "10:49") := by
  refine ⟨getDistance_demo, ?_, ?_, ?_⟩
  · rw [dayEffDep_scenario]
    rw [show ((630:ℚ)) = (((630:ℤ)):ℚ) by norm_num,
      minutesToTimeStr_int 630 (by norm_num)]
    decide
  · have hleg : dayLegTravel getDistanceFromLatLonInKm scenarioModes demoDay 0 =
        legTravel getDistanceFromLatLonInKm scenarioModes
          (spotIdOf demoDay.dayId 0) tokyoSpot towerSpot := rfl
    rw [hleg, legTravel_scenario]
  · have hproj : ((useItineraryCalculation getDistanceFromLatLonInKm [demoDay]
        scenarioStart emptyMap scenarioStays scenarioModes).get? 0).map
        (fun dd => (dd.spots.get? 0).map (fun r => r.nextArrivalTime)) =
        some (some (minutesToTimeStr (jsAdd
          (dayEffDep getDistanceFromLatLonInKm scenarioStart emptyMap scenarioStays
            scenarioModes demoDay 0)
          (legTravel getDistanceFromLatLonInKm scenarioModes
            (spotIdOf demoDay.dayId 0) tokyoSpot towerSpot)))) := rfl
    rw [hproj, dayEffDep_scenario, legTravel_scenario]
    have hsum : jsAdd (some (630:ℚ)) (some 19) = some 649 := by
      simp only [jsAdd, Option.some.injEq]
      norm_num
    rw [hsum]
    rw [show ((649:ℚ)) = (((649:ℤ)):ℚ) by norm_num,
      minutesToTimeStr_int 649 (by norm_num)]
    decide

end Itinerary

section ItinerarySanity

open Itinerary

example : timeToMinutes "09:00" = some 540 := by
  simp +decide [timeToMinutes, jsAdd, jsMul, jsNumberL, digitsVal, splitOnChar]
  norm_num
example : timeToMinutes "10:48" = some 648 := by
  simp +decide [timeToMinutes, jsAdd, jsMul, jsNumberL, digitsVal, splitOnChar]
  norm_num
example : timeToMinutes "" = some 0 := by decide
example : timeToMinutes "ab:cd" = none := by
  simp +decide [timeToMinutes, jsAdd, jsMul, jsNumberL, splitOnChar]
example : timeToMinutes "9" = none := by
  simp +decide [timeToMinutes, jsAdd, jsMul, jsNumberL, digitsVal, splitOnChar]
example : minutesToTimeStr (some 540) = "09:00" := by
  norm_num [minutesToTimeStr, jsRemInt, jsRemRat, ratTrunc, jsIntDisplay, padStart2]
  decide
example : minutesToTimeStr (some 1500) = "01:00" := by
  norm_num [minutesToTimeStr, jsRemInt, jsRemRat, ratTrunc, jsIntDisplay, padStart2]
  decide
example : minutesToTimeStr none = "NaN:NaN" := by decide
example : parseStayDuration "1.5 hr" = some 90 := by
  simp +decide [parseStayDuration, parseFloatJs, jsMul, digitsVal, fracVal]
  norm_num
example : parseStayDuration "45 min" = some 45 := by
  simp +decide [parseStayDuration, parseIntJs, digitsVal]
example : parseStayDuration "-" = some 0 := by decide
example : parseStayDuration "Overnight" = some 0 := by decide
example : jsNumber "5.9" = some (59 / 10) := by
  simp +decide [jsNumber, jsNumberL, digitsVal, fracVal, splitOnChar]
  norm_num

end ItinerarySanity
